import Mathlib

/-!
Shallow embedding of the benchmark orchestration script
src/tools/run-benchmarks.py (classes Config, MetricsExtractor,
ScalingBenchmark, ScalingAnalyzer, ServerManager and the helper
ensure_sudo_access together with the sudo gate of main).

Python floats are modelled as rationals; a Python value that may be None
is an Option; a Python expression that may raise is an Except.  The
regular-expression searches of MetricsExtractor are embedded as explicit
left-to-right scanners over the character list of the output string,
one per pattern of the source.
-/

namespace RunBenchmarks

/-- Whitespace class of the patterns (the characters matched by a
whitespace metacharacter on ASCII text). -/
def isSpaceChar (c : Char) : Bool :=
  c = ' ' || c = '\t' || c = '\n' || c = '\r' || c = '\x0b' || c = '\x0c'

/-- Value of a digit run, most significant first. -/
def digitsToNat (ds : List Char) : ℕ :=
  ds.foldl (fun n c => 10 * n + (c.toNat - 48)) 0

/-- Value of the float literal with integer part ip and fractional part fp,
as produced by converting the captured group to a float: the integer part
plus the fractional digits scaled down by their count. -/
def numVal (ip fp : List Char) : ℚ :=
  mkRat (digitsToNat ip * 10 ^ fp.length + digitsToNat fp) (10 ^ fp.length)

/-- Match the number pattern (one or more digits, an optional dot, then
any digits) at the start of cs, greedily, then require the rest of the
pattern, given as the predicate suffix, on the remaining characters.
The only backtracking the full patterns of the source can need is on the
optional dot (digits never overlap with what may follow the group), so
that alternative is tried explicitly. -/
def matchNumber (suffix : List Char → Bool) (cs : List Char) : Option ℚ :=
  let ip := cs.takeWhile Char.isDigit
  let rest := cs.dropWhile Char.isDigit
  if ip.isEmpty then none
  else
    match rest with
    | '.' :: rest2 =>
      let fp := rest2.takeWhile Char.isDigit
      let rest3 := rest2.dropWhile Char.isDigit
      if suffix rest3 then some (numVal ip fp)
      else if suffix rest then some (numVal ip [])
      else none
    | _ => if suffix rest then some (numVal ip []) else none

/-- Consume the literal lit at the start of cs, case sensitively. -/
def stripLit : List Char → List Char → Option (List Char)
  | [], cs => some cs
  | _, [] => none
  | l :: ls, c :: cs => if c = l then stripLit ls cs else none

/-- Consume the literal lit at the start of cs, ignoring case
(the literal is given in lower case). -/
def stripLitCI : List Char → List Char → Option (List Char)
  | [], cs => some cs
  | _, [] => none
  | l :: ls, c :: cs => if c.toLower = l then stripLitCI ls cs else none

/-- Drop a possibly empty run of whitespace. -/
def dropSpaces (cs : List Char) : List Char := cs.dropWhile isSpaceChar

/-- Require at least one whitespace character, then drop the whole run. -/
def stripSpaces1 : List Char → Option (List Char)
  | [] => none
  | c :: cs => if isSpaceChar c then some (dropSpaces cs) else none

/-- Try the matcher at every start position, left to right, as a search
over the subject string does; the first position with a match wins. -/
def searchAt (m : List Char → Option ℚ) : List Char → Option ℚ
  | [] => m []
  | c :: cs =>
    match m (c :: cs) with
    | some v => some v
    | none => searchAt m cs

/-- Search the string for the matcher m. -/
def search (m : List Char → Option ℚ) (s : String) : Option ℚ :=
  searchAt m s.data

/-- Pattern of the form: a literal label, one or more spaces, then the
captured number (nothing required after the group). -/
def labeledNumber (label : String) (cs : List Char) : Option ℚ := do
  let r1 ← stripLit label.data cs
  let r2 ← stripSpaces1 r1
  matchNumber (fun _ => true) r2

/-- Pattern of the form: a literal label, one or more spaces, the captured
number, any spaces, then the literal ms. -/
def labeledMs (label : String) (cs : List Char) : Option ℚ := do
  let r1 ← stripLit label.data cs
  let r2 ← stripSpaces1 r1
  matchNumber (fun rest => (stripLit "ms".data (dropSpaces rest)).isSome) r2

/-- Fallback throughput pattern: the captured number, one or more spaces,
message with an optional s, a slash and s, case-insensitively.  The
trailing optional group for ec and ond of the source pattern can never
make a match fail once the slash and s are consumed, so it does not
affect which strings match nor the captured number. -/
def matchMsgPerSec (cs : List Char) : Option ℚ :=
  matchNumber
    (fun rest =>
      (do
        let r1 ← stripSpaces1 rest
        let r2 ← stripLitCI "message".data r1
        let r3 := match stripLitCI "s".data r2 with
          | some x => x
          | none => r2
        let _ ← stripLitCI "/s".data r3
        pure ()).isSome)
    cs

/-- Pattern for the minimum latency line: Min, an optional imum, a space,
latency and a colon, spaces, the number, spaces, ms.  The optional group
is resolved by trying the long alternative first, as the greedy engine
does. -/
def matchMinLatency (cs : List Char) : Option ℚ :=
  match labeledMs "Minimum latency:" cs with
  | some v => some v
  | none => labeledMs "Min latency:" cs

/-- Pattern for the maximum latency line, like the minimum one. -/
def matchMaxLatency (cs : List Char) : Option ℚ :=
  match labeledMs "Maximum latency:" cs with
  | some v => some v
  | none => labeledMs "Max latency:" cs

/-- Pattern for the total messages line: Total messages, then sent or
processed, a colon, spaces, and a captured run of digits (an integer
group, no dot). -/
def matchTotalMessages (cs : List Char) : Option ℚ := do
  let r1 ← (match stripLit "Total messages sent:".data cs with
    | some x => some x
    | none => stripLit "Total messages processed:".data cs)
  let r2 ← stripSpaces1 r1
  let ip := r2.takeWhile Char.isDigit
  if ip.isEmpty then none else some (mkRat (digitsToNat ip) 1)

/-- Pattern for the success rate line: the label, spaces, the number, then
a percent sign. -/
def matchSuccessRate (cs : List Char) : Option ℚ := do
  let r1 ← stripLit "Success rate:".data cs
  let r2 ← stripSpaces1 r1
  matchNumber (fun rest => match rest with | '%' :: _ => true | _ => false) r2

/-- Throughput parse of extract_from_output: first the Throughput label
pattern; only if it matches nowhere, the messages-per-second pattern. -/
def parse_throughput (s : String) : Option ℚ :=
  match search (labeledNumber "Throughput:") s with
  | some v => some v
  | none => search matchMsgPerSec s

/-- The metrics dictionary built by MetricsExtractor.extract_from_output;
a missing value is none. -/
structure Metrics where
  throughput : Option ℚ
  avg_latency : Option ℚ
  min_latency : Option ℚ
  max_latency : Option ℚ
  p50_latency : Option ℚ
  p95_latency : Option ℚ
  p99_latency : Option ℚ
  total_time : Option ℚ
  total_messages : Option ℚ
  success_rate : Option ℚ
deriving DecidableEq

/-- The initial all-None metrics dictionary. -/
def emptyMetrics : Metrics :=
  { throughput := none, avg_latency := none, min_latency := none,
    max_latency := none, p50_latency := none, p95_latency := none,
    p99_latency := none, total_time := none, total_messages := none,
    success_rate := none }

/-- MetricsExtractor.extract_from_output: run every pattern search over
the output, then, when no throughput was parsed but the parsed total time
and total messages are truthy and the total time is positive, derive the
throughput as total messages times 1000 over the total time. -/
def extract_from_output (output : String) : Metrics :=
  let m : Metrics :=
    { throughput := parse_throughput output
      avg_latency := search (labeledMs "Average latency:") output
      min_latency := search matchMinLatency output
      max_latency := search matchMaxLatency output
      p50_latency := search (labeledMs "P50 latency:") output
      p95_latency := search (labeledMs "P95 latency:") output
      p99_latency := search (labeledMs "P99 latency:") output
      total_time := search (labeledMs "Total time:") output
      total_messages := search matchTotalMessages output
      success_rate := search matchSuccessRate output }
  match m.throughput, m.total_time, m.total_messages with
  | none, some t, some tm =>
    if t ≠ 0 ∧ tm ≠ 0 ∧ 0 < t then
      { m with throughput := some (tm * 1000 / t) }
    else m
  | _, _, _ => m

/-- Configuration fields of Config that the sweeps read. -/
structure Config where
  client_counts : List ℕ
  max_threads : ℕ

/-- The configuration built by Config: client counts are the powers of
two with exponent 0 to 4, and 16 threads at most. -/
def defaultConfig : Config :=
  { client_counts := (List.range 5).map (2 ^ ·), max_threads := 16 }

/-- Outcome of one client subprocess invocation: it returned with an exit
code and produced output, it hit the timeout, or it raised some other
exception with a message. -/
inductive InvocationOutcome where
  | completed (returncode : Int) (stdout : String)
  | timedOut
  | failed (message : String)

/-- The per-invocation timeout, in seconds, passed to the subprocess run
of the client. -/
def invocation_timeout_seconds : ℕ := 300

/-- One result dictionary returned by ScalingBenchmark.run_single_test.
The metric keys spread into the success dictionary are kept in a Metrics
value; the failure dictionaries carry no metric keys, which reads back as
None, so they hold the all-None metrics. -/
structure RunRecord where
  variant : String
  num_clients : ℕ
  messages_per_client : ℕ
  total_messages : ℕ
  run_number : ℕ
  success : Bool
  output : Option String
  error : Option String
  metrics : Metrics
  scaling_type : Option String

/-- ScalingBenchmark.run_single_test over the outcome of the client
invocation: a completed invocation is extracted into metrics and succeeds
exactly when the exit code is zero; a timeout becomes a failed record
tagged timeout; any other exception becomes a failed record carrying the
message. -/
def run_single_test (variant : String) (_port : ℕ)
    (num_clients messages_per_client run_number : ℕ)
    (outcome : InvocationOutcome) : RunRecord :=
  match outcome with
  | .completed rc out =>
    { variant := variant, num_clients := num_clients,
      messages_per_client := messages_per_client,
      total_messages := num_clients * messages_per_client,
      run_number := run_number, success := rc = 0,
      output := some out, error := none,
      metrics := extract_from_output out, scaling_type := none }
  | .timedOut =>
    { variant := variant, num_clients := num_clients,
      messages_per_client := messages_per_client,
      total_messages := num_clients * messages_per_client,
      run_number := run_number, success := false,
      output := none, error := some "timeout",
      metrics := emptyMetrics, scaling_type := none }
  | .failed e =>
    { variant := variant, num_clients := num_clients,
      messages_per_client := messages_per_client,
      total_messages := num_clients * messages_per_client,
      run_number := run_number, success := false,
      output := none, error := some e,
      metrics := emptyMetrics, scaling_type := none }

/-- ScalingBenchmark.run_strong_scaling: for every configured client
count, the per-client workload is the total divided by the count with
floor division, and every run record is collected in order with its
scaling type set; the world of subprocess invocations is an oracle from
client count and run number to an outcome. -/
def run_strong_scaling (cfg : Config) (variant : String) (port : ℕ)
    (total_messages num_runs : ℕ)
    (world : ℕ → ℕ → InvocationOutcome) : List RunRecord :=
  cfg.client_counts.flatMap (fun nc =>
    let mpc := total_messages / nc
    (List.range num_runs).map (fun i =>
      let r := run_single_test variant port nc mpc (i + 1) (world nc (i + 1))
      { r with scaling_type := some "strong" }))

/-- ScalingBenchmark.run_weak_scaling: the per-client workload is fixed
and every configured client count contributes its runs in order. -/
def run_weak_scaling (cfg : Config) (variant : String) (port : ℕ)
    (messages_per_client num_runs : ℕ)
    (world : ℕ → ℕ → InvocationOutcome) : List RunRecord :=
  cfg.client_counts.flatMap (fun nc =>
    (List.range num_runs).map (fun i =>
      let r := run_single_test variant port nc messages_per_client (i + 1)
        (world nc (i + 1))
      { r with scaling_type := some "weak" }))

/-- ScalingAnalyzer.calculate_speedup: None in, None out; a variant value
of zero gives None; throughput speedup divides variant by baseline, which
raises a division error when the baseline is zero; any other metric type
divides baseline by variant, whose divisor the zero guard has checked. -/
def calculate_speedup (baseline_value variant_value : Option ℚ)
    (metric_type : String) : Except String (Option ℚ) :=
  match baseline_value, variant_value with
  | none, _ => Except.ok none
  | some _, none => Except.ok none
  | some b, some v =>
    if v = 0 then Except.ok none
    else if metric_type = "throughput" then
      if b = 0 then Except.error "ZeroDivisionError"
      else Except.ok (some (v / b))
    else Except.ok (some (b / v))

/-- One aggregated point of ScalingAnalyzer.aggregate_runs; a key the
source dictionary would not carry is none. -/
structure AggPoint where
  num_clients : ℕ
  num_runs : ℕ
  messages_per_client : ℕ
  total_messages : ℕ
  throughput_mean : Option ℚ
  throughput_stdev : Option ℝ
  latency_mean : Option ℚ
  latency_stdev : Option ℝ

/-- Arithmetic mean, as the statistics module computes it on a nonempty
sample list. -/
def mean (xs : List ℚ) : ℚ := xs.sum / xs.length

/-- Sample variance with Bessel correction, the square of the sample
standard deviation the statistics module computes on two or more
samples. -/
def sampleVariance (xs : List ℚ) : ℚ :=
  (xs.map (fun x => (x - mean xs) ^ 2)).sum / (xs.length - 1)

/-- Sample standard deviation of the statistics module. -/
noncomputable def stddev (xs : List ℚ) : ℝ :=
  Real.sqrt ((sampleVariance xs : ℚ) : ℝ)

/-- The sample list a comprehension with a truthiness filter keeps: the
values of the field that are present and nonzero, in order. -/
def truthySamples (f : RunRecord → Option ℚ) (runs : List RunRecord) :
    List ℚ :=
  runs.filterMap (fun r =>
    match f r with
    | some v => if v = 0 then none else some v
    | none => none)

/-- The group a num-clients key selects: every record with that key, in
order, exactly what the grouping dictionary accumulates for the key. -/
def groupOf (results : List RunRecord) (nc : ℕ) : List RunRecord :=
  results.filter (fun r => r.num_clients = nc)

/-- Insert a number into a sorted list, keeping it sorted. -/
def insertSorted (n : ℕ) : List ℕ → List ℕ
  | [] => [n]
  | m :: ms => if n ≤ m then n :: m :: ms else m :: insertSorted n ms

/-- Ascending insertion sort; the iteration order over the sorted keys of
the grouping dictionary. -/
def sortNat (l : List ℕ) : List ℕ := l.foldr insertSorted []

/-- The body of the aggregation loop for one group of runs sharing a
num-clients key: the run count is the whole group size; each metric keeps
only its truthy samples, whose mean is recorded when any exist, with the
sample standard deviation when there are at least two and zero when there
is exactly one. -/
noncomputable def aggregate_group (nc : ℕ) (runs : List RunRecord) :
    AggPoint :=
  let throughputs := truthySamples (fun r => r.metrics.throughput) runs
  let latencies := truthySamples (fun r => r.metrics.avg_latency) runs
  { num_clients := nc
    num_runs := runs.length
    messages_per_client := ((runs.head?).map (·.messages_per_client)).getD 0
    total_messages := ((runs.head?).map (·.total_messages)).getD 0
    throughput_mean :=
      if throughputs.isEmpty then none else some (mean throughputs)
    throughput_stdev :=
      if throughputs.isEmpty then none
      else if 1 < throughputs.length then some (stddev throughputs)
      else some 0
    latency_mean :=
      if latencies.isEmpty then none else some (mean latencies)
    latency_stdev :=
      if latencies.isEmpty then none
      else if 1 < latencies.length then some (stddev latencies)
      else some 0 }

/-- ScalingAnalyzer.aggregate_runs: nothing for an empty result list;
otherwise one aggregated point per distinct num-clients key, in ascending
key order, each computed from the full group of records with that key. -/
noncomputable def aggregate_runs (results : List RunRecord) :
    List AggPoint :=
  if results.isEmpty then []
  else
    (sortNat (results.map (·.num_clients)).dedup).map
      (fun nc => aggregate_group nc (groupOf results nc))

/-- The sample list the specification describes for a metric of an
aggregation group: every non-null sample, a zero included.  Stated from
the specification's words, to be compared with the truthiness filter the
source applies. -/
def specNonNullSamples (f : RunRecord → Option ℚ) (runs : List RunRecord) :
    List ℚ :=
  runs.filterMap f

/-- The mutable server fields of Config, together with a counter of how
many times stop_server has been invoked, recorded for the lifecycle
argument. -/
structure ServerState where
  server_process : Option ℕ
  current_variant : Option String
  stop_invocations : ℕ

/-- ServerManager.stop_server: every invocation is counted; when a server
process is recorded, the shutdown path runs and its final block clears
the process and variant fields; with no recorded process the body does
nothing. -/
def stop_server (s : ServerState) : ServerState :=
  if s.server_process.isSome then
    { server_process := none, current_variant := none,
      stop_invocations := s.stop_invocations + 1 }
  else
    { s with stop_invocations := s.stop_invocations + 1 }

/-- Outcome of a block of Python code: it produced a value, or an
exception escaped with a message. -/
inductive BodyOutcome (α : Type) where
  | ok (value : α)
  | raised (exn : String)

/-- A try block with a finalizer: the finalizer runs on the state the
body left behind, whether the body returned or raised, and the body's
outcome is then returned or re-raised unchanged. -/
def tryFinally {α : Type} (body : ServerState → BodyOutcome α × ServerState)
    (finalizer : ServerState → ServerState) (s : ServerState) :
    BodyOutcome α × ServerState :=
  let r := body s
  (r.1, finalizer r.2)

/-- The result dictionary of ScalingBenchmark.run_variant_benchmarks when
it returns instead of raising. -/
inductive VariantResult (α : Type) where
  | unknownVariant
  | serverStartFailed
  | finished (value : α)

/-- The variants the server-configuration table of
run_variant_benchmarks knows. -/
def known_variants : List String :=
  ["jvm-local", "jvm-gramine", "native-dynamic", "native-static"]

/-- The state a successful start function leaves: a live server process
and the current variant recorded in the configuration. -/
def startedState (variant : String) (s : ServerState) : ServerState :=
  { server_process := some 1, current_variant := some variant,
    stop_invocations := s.stop_invocations }

/-- ScalingBenchmark.run_variant_benchmarks: an unknown variant and a
failed server start return error dictionaries before the guarded region;
once the start function has succeeded and recorded a live process, the
warmup and the two sweeps (the body) run inside a try whose finalizer is
stop_server, so the stop runs once whether the body returns or raises. -/
def run_variant_benchmarks {α : Type} (variant : String) (startOk : Bool)
    (body : ServerState → BodyOutcome α × ServerState) (s : ServerState) :
    BodyOutcome (VariantResult α) × ServerState :=
  if ¬ known_variants.contains variant then
    (BodyOutcome.ok VariantResult.unknownVariant, s)
  else if ¬ startOk then
    (BodyOutcome.ok VariantResult.serverStartFailed, s)
  else
    match tryFinally body stop_server (startedState variant s) with
    | (BodyOutcome.ok a, s2) => (BodyOutcome.ok (VariantResult.finished a), s2)
    | (BodyOutcome.raised e, s2) => (BodyOutcome.raised e, s2)

/-- Observable steps of the sudo gate and of the variant loop of main. -/
inductive SudoAction where
  | checkNonInteractive
  | promptPassword
  | startServer (variant : String)
deriving DecidableEq

/-- The environment the sudo helper probes: whether a non-interactive
sudo check succeeds, and whether an interactive password validation
would succeed. -/
structure SudoEnv where
  non_interactive_ok : Bool
  password_auth_ok : Bool

/-- The helper ensure_sudo_access: nothing to do without the sudo need;
with it, a non-interactive check first, and on its failure an interactive
password prompt whose validation decides the returned flag.  The
keep-alive refresher thread started on success performs no further
user-visible action and is not modelled. -/
def ensure_sudo_access (needs_sudo : Bool) (env : SudoEnv) :
    Bool × List SudoAction :=
  if ¬ needs_sudo then (true, [])
  else if env.non_interactive_ok then (true, [SudoAction.checkNonInteractive])
  else if env.password_auth_ok then
    (true, [SudoAction.checkNonInteractive, SudoAction.promptPassword])
  else
    (false, [SudoAction.checkNonInteractive, SudoAction.promptPassword])

/-- The variants whose presence makes main require sudo. -/
def gramine_variants : List String :=
  ["jvm-gramine", "native-dynamic", "native-static"]

/-- The sudo gate of main followed by the per-variant loop, as the trace
of observable steps: when some requested variant needs Gramine, the gate
runs first and a failed gate exits before any server start; otherwise
every requested variant gets its server started in turn. -/
def main_variant_flow (variants : List String) (env : SudoEnv) :
    List SudoAction :=
  let needs_sudo := variants.any (fun v => gramine_variants.contains v)
  if needs_sudo then
    match ensure_sudo_access true env with
    | (true, acts) => acts ++ variants.map SudoAction.startServer
    | (false, acts) => acts
  else variants.map SudoAction.startServer

/-- Raw client output whose only metric lines are a total time and a
total message count. -/
def exampleOutput : String := "Total time: 2000 ms\nTotal messages sent: 400"

/-- Raw client output with a total time and a parsed total message count
of zero. -/
def zeroMessagesOutput : String :=
  "Total time: 2000 ms\nTotal messages sent: 0"

/-- A run record whose throughput sample is present and equal to zero. -/
def zeroThroughputRun : RunRecord :=
  { variant := "jvm-local", num_clients := 1, messages_per_client := 10,
    total_messages := 10, run_number := 1, success := true,
    output := none, error := none,
    metrics := { emptyMetrics with throughput := some 0 },
    scaling_type := none }

/-- A successful run record carrying a throughput sample but no latency
sample. -/
def throughputOnlyRun : RunRecord :=
  { variant := "jvm-local", num_clients := 1, messages_per_client := 10,
    total_messages := 10, run_number := 1, success := true,
    output := none, error := none,
    metrics := { emptyMetrics with throughput := some 100 },
    scaling_type := none }

/-- A successful run record carrying a latency sample but no throughput
sample. -/
def latencyOnlyRun : RunRecord :=
  { variant := "jvm-local", num_clients := 1, messages_per_client := 10,
    total_messages := 10, run_number := 2, success := true,
    output := none, error := none,
    metrics := { emptyMetrics with avg_latency := some 5 },
    scaling_type := none }

/-- A timed-out run record, carrying no metric samples at all. -/
def timeoutRun : RunRecord :=
  run_single_test "jvm-local" 9443 1 10 1 InvocationOutcome.timedOut

/-- A two-record result list on one client count, one record per
metric. -/
def mixedResults : List RunRecord := [throughputOnlyRun, latencyOnlyRun]

/-- The aggregated point of the mixed two-record group. -/
noncomputable def mixedPoint : AggPoint :=
  aggregate_group 1 (groupOf mixedResults 1)

/-- The aggregated point of the singleton group containing only a record
with one throughput sample. -/
noncomputable def singlePoint : AggPoint :=
  aggregate_group 1 (groupOf [throughputOnlyRun] 1)

/-- A body for the lifecycle argument that raises at once, leaving the
state untouched. -/
def raisingBody : ServerState → BodyOutcome Unit × ServerState :=
  fun st => (BodyOutcome.raised "boom", st)

/-- An initial server state with no live process and no stop recorded. -/
def idleState : ServerState :=
  { server_process := none, current_variant := none, stop_invocations := 0 }

/-- The client count of a run record does not depend on the invocation
outcome. -/
@[simp]
theorem run_single_test_num_clients (variant : String)
    (port nc mpc rn : ℕ) (o : InvocationOutcome) :
    (run_single_test variant port nc mpc rn o).num_clients = nc := by
  cases o <;> rfl

/-- The per-client workload of a run record does not depend on the
invocation outcome. -/
@[simp]
theorem run_single_test_messages_per_client (variant : String)
    (port nc mpc rn : ℕ) (o : InvocationOutcome) :
    (run_single_test variant port nc mpc rn o).messages_per_client = mpc := by
  cases o <;> rfl

/-- The total message count of a run record does not depend on the
invocation outcome. -/
@[simp]
theorem run_single_test_total_messages_eq (variant : String)
    (port nc mpc rn : ℕ) (o : InvocationOutcome) :
    (run_single_test variant port nc mpc rn o).total_messages = nc * mpc := by
  cases o <;> rfl

/-- Length of a flat map whose pieces all have the same length. -/
theorem length_flatMap_const {α β : Type} (l : List α) (f : α → List β)
    (n : ℕ) (h : ∀ a, (f a).length = n) :
    (l.flatMap f).length = l.length * n := by
  induction l with
  | nil => simp
  | cons a l ih => simp [List.flatMap_cons, ih, h a, Nat.succ_mul, Nat.add_comm]

/-- C9: every run record of a single benchmark invocation, whether it
completed, timed out or failed with another exception, records a total
message count equal to the client count times the per-client workload. -/
theorem total_messages_invariant (variant : String) (port nc mpc rn : ℕ)
    (o : InvocationOutcome) :
    (run_single_test variant port nc mpc rn o).total_messages = nc * mpc := by
  cases o <;> rfl

/-- C1: whenever a throughput speedup is produced it is the variant value
over the baseline, whenever a speedup for any other metric type is
produced it is the baseline value over the variant, and the two
concrete grids of the specification come out as 3 over 2 and 2. -/
theorem speedup_direction :
    (∀ b v s : ℚ,
      calculate_speedup (some b) (some v) "throughput" = Except.ok (some s) →
      s = v / b) ∧
    (∀ mt : String, mt ≠ "throughput" → ∀ b v s : ℚ,
      calculate_speedup (some b) (some v) mt = Except.ok (some s) →
      s = b / v) ∧
    calculate_speedup (some 100) (some 150) "throughput" =
      Except.ok (some (3 / 2)) ∧
    calculate_speedup (some 50) (some 25) "latency" = Except.ok (some 2) := by
  refine ⟨?_, ?_, ?_, ?_⟩
  · intro b v s h
    simp only [calculate_speedup] at h
    split_ifs at h <;> simp_all
  · intro mt hmt b v s h
    simp only [calculate_speedup] at h
    split_ifs at h <;> simp_all
  · norm_num [calculate_speedup]
  · norm_num [calculate_speedup]
    decide

/-- C1 witness: the direction theorem applied at the concrete grids of
the specification. -/
theorem speedup_direction_witness :
    (3 / 2 : ℚ) = 150 / 100 ∧ (2 : ℚ) = 50 / 25 := by
  constructor
  · exact speedup_direction.1 100 150 (3 / 2) (by norm_num [calculate_speedup])
  · exact speedup_direction.2.1 "latency" (by decide) 50 25 2
      (by norm_num [calculate_speedup]; decide)

/-- C10: the speedup guards return None for a missing baseline, a missing
variant and a zero variant; any non-throughput direction always returns
normally with the checked divisor; and a zero baseline with a nonzero
variant reaches the throughput division unguarded and raises. -/
theorem speedup_guards :
    (∀ (v : Option ℚ) (mt : String),
      calculate_speedup none v mt = Except.ok none) ∧
    (∀ (b : ℚ) (mt : String),
      calculate_speedup (some b) none mt = Except.ok none) ∧
    (∀ (b : ℚ) (mt : String),
      calculate_speedup (some b) (some 0) mt = Except.ok none) ∧
    (∀ (b v : ℚ) (mt : String), mt ≠ "throughput" →
      calculate_speedup (some b) (some v) mt =
        Except.ok (if v = 0 then none else some (b / v))) ∧
    (∀ v : ℚ, v ≠ 0 →
      calculate_speedup (some 0) (some v) "throughput" =
        Except.error "ZeroDivisionError") := by
  refine ⟨fun v mt => rfl, fun b mt => rfl, fun b mt => by
    simp [calculate_speedup], fun b v mt hmt => ?_, fun v hv => ?_⟩
  · simp only [calculate_speedup]
    split_ifs <;> simp_all
  · simp [calculate_speedup, hv]

/-- C10 witness: the guard theorem applied at concrete values, showing
the raised division error at a zero baseline and a normal return in the
latency direction. -/
theorem speedup_guards_witness :
    calculate_speedup (some 0) (some 5) "throughput" =
      Except.error "ZeroDivisionError" ∧
    calculate_speedup (some 3) (some 5) "latency" =
      Except.ok (some (3 / 5)) := by
  constructor
  · exact speedup_guards.2.2.2.2 5 (by norm_num)
  · have h := speedup_guards.2.2.2.1 3 5 "latency" (by decide)
    simpa using h

/-- C6: the per-invocation timeout is 300 seconds; a timeout becomes a
failed record tagged timeout and any other invocation exception becomes a
failed record carrying the message, and both sweeps always produce one
record per configured client count and run, whatever each invocation
does, so no failed run aborts a sweep. -/
theorem failure_handling :
    invocation_timeout_seconds = 300 ∧
    (∀ (variant : String) (port nc mpc rn : ℕ),
      (run_single_test variant port nc mpc rn
        InvocationOutcome.timedOut).success = false ∧
      (run_single_test variant port nc mpc rn
        InvocationOutcome.timedOut).error = some "timeout") ∧
    (∀ (variant : String) (port nc mpc rn : ℕ) (e : String),
      (run_single_test variant port nc mpc rn
        (InvocationOutcome.failed e)).success = false ∧
      (run_single_test variant port nc mpc rn
        (InvocationOutcome.failed e)).error = some e) ∧
    (∀ (cfg : Config) (variant : String) (port tot n : ℕ)
      (world : ℕ → ℕ → InvocationOutcome),
      (run_strong_scaling cfg variant port tot n world).length =
        cfg.client_counts.length * n) ∧
    (∀ (cfg : Config) (variant : String) (port mpc n : ℕ)
      (world : ℕ → ℕ → InvocationOutcome),
      (run_weak_scaling cfg variant port mpc n world).length =
        cfg.client_counts.length * n) := by
  refine ⟨rfl, fun variant port nc mpc rn => ⟨rfl, rfl⟩,
    fun variant port nc mpc rn e => ⟨rfl, rfl⟩, ?_, ?_⟩
  · intro cfg variant port tot n world
    exact length_flatMap_const _ _ n (fun nc => by simp)
  · intro cfg variant port mpc n world
    exact length_flatMap_const _ _ n (fun nc => by simp)

/-- C3: the default client grid is the powers of two from one to sixteen;
a strong-scaling sweep over a total of 1000 messages gives each client
count the floor of 1000 over the count as per-client workload, the grid
of the specification comes out exactly, and the 16-client point keeps the
shortfall (16 times 62 is 992, below 1000) in its recorded totals rather
than correcting it. -/
theorem strong_scaling_grid :
    defaultConfig.client_counts = [1, 2, 4, 8, 16] ∧
    (∀ (port : ℕ) (world : ℕ → ℕ → InvocationOutcome),
      (run_strong_scaling defaultConfig "jvm-local" port 1000 1 world).map
        (fun r => (r.num_clients, r.messages_per_client, r.total_messages)) =
      [(1, 1000, 1000), (2, 500, 1000), (4, 250, 1000), (8, 125, 1000),
        (16, 62, 992)]) ∧
    1000 / 16 = 62 ∧ 16 * 62 = 992 ∧ 992 < 1000 := by
  refine ⟨by decide, ?_, by norm_num, by norm_num, by norm_num⟩
  intro port world
  simp [run_strong_scaling, defaultConfig]
  rfl

/-- C5 (amended): whenever no throughput is parsed, a positive total time
is parsed and a nonzero total message count is parsed, extraction derives
the throughput as the message count times 1000 over the total time; the
parsed values themselves are kept.  Extraction is a pure function of the
output string, so re-extracting the same text gives the same record. -/
theorem extract_fallback (s : String) (t m : ℚ)
    (h1 : parse_throughput s = none)
    (h2 : search (labeledMs "Total time:") s = some t)
    (h3 : search matchTotalMessages s = some m)
    (ht : 0 < t) (hm : m ≠ 0) :
    (extract_from_output s).throughput = some (m * 1000 / t) ∧
    (extract_from_output s).total_time = some t ∧
    (extract_from_output s).total_messages = some m := by
  have ht0 : t ≠ 0 := ne_of_gt ht
  simp only [extract_from_output, h1, h2, h3]
  simp [ht, ht0, hm]

/-- C5 witness: the fallback theorem applied to the concrete output of
the specification, a total time of 2000 ms with 400 messages and no
throughput line, deriving 400 times 1000 over 2000, that is 200. -/
theorem extract_fallback_witness :
    (extract_from_output exampleOutput).throughput =
      some (400 * 1000 / 2000) ∧
    (extract_from_output exampleOutput).total_time = some 2000 ∧
    (extract_from_output exampleOutput).total_messages = some 400 :=
  extract_fallback exampleOutput 2000 400 (by decide) (by decide) (by decide)
    (by norm_num) (by norm_num)

/-- C5 counterexample: on an output whose total message count parses as
zero and whose total time parses as 2000, no throughput is parsed and
both values the claim requires are present, yet extraction leaves the
throughput unset instead of deriving the claimed quotient. -/
theorem extract_fallback_cex :
    parse_throughput zeroMessagesOutput = none ∧
    search (labeledMs "Total time:") zeroMessagesOutput = some 2000 ∧
    search matchTotalMessages zeroMessagesOutput = some 0 ∧
    (extract_from_output zeroMessagesOutput).throughput = none ∧
    (extract_from_output zeroMessagesOutput).throughput ≠
      some (0 * 1000 / 2000) := by
  have hp : parse_throughput zeroMessagesOutput = none := by decide
  have h2 : search (labeledMs "Total time:") zeroMessagesOutput =
      some 2000 := by decide
  have h3 : search matchTotalMessages zeroMessagesOutput = some 0 := by decide
  have h4 : (extract_from_output zeroMessagesOutput).throughput = none := by
    simp only [extract_from_output, hp, h2, h3]
    simp
  exact ⟨hp, h2, h3, h4, by rw [h4]; simp⟩

/-- The client-count key an aggregated group carries. -/
@[simp]
theorem aggregate_group_num_clients (nc : ℕ) (runs : List RunRecord) :
    (aggregate_group nc runs).num_clients = nc := rfl

/-- The run count of an aggregated group is the whole group size. -/
@[simp]
theorem aggregate_group_num_runs (nc : ℕ) (runs : List RunRecord) :
    (aggregate_group nc runs).num_runs = runs.length := rfl

/-- A truthiness-filtered sample list is no longer than the group. -/
theorem truthySamples_length_le (f : RunRecord → Option ℚ)
    (runs : List RunRecord) :
    (truthySamples f runs).length ≤ runs.length :=
  List.length_filterMap_le _ _

/-- C2 (amended): every aggregated point counts all the records of its
client-count group, nulls included, while each metric's mean and standard
deviation are computed over exactly that metric's truthy samples, the
present and nonzero values; a present sample of zero is dropped together
with the nulls, and a record missing one metric still feeds the other. -/
theorem aggregate_counts_and_samples (results : List RunRecord)
    (p : AggPoint) (hp : p ∈ aggregate_runs results) :
    p.num_runs = (groupOf results p.num_clients).length ∧
    p.throughput_mean =
      (if (truthySamples (fun r => r.metrics.throughput)
            (groupOf results p.num_clients)).isEmpty then none
        else some (mean (truthySamples (fun r => r.metrics.throughput)
          (groupOf results p.num_clients)))) ∧
    p.latency_mean =
      (if (truthySamples (fun r => r.metrics.avg_latency)
            (groupOf results p.num_clients)).isEmpty then none
        else some (mean (truthySamples (fun r => r.metrics.avg_latency)
          (groupOf results p.num_clients)))) ∧
    p.throughput_stdev =
      (if (truthySamples (fun r => r.metrics.throughput)
            (groupOf results p.num_clients)).isEmpty then none
        else if 1 < (truthySamples (fun r => r.metrics.throughput)
            (groupOf results p.num_clients)).length then
          some (stddev (truthySamples (fun r => r.metrics.throughput)
            (groupOf results p.num_clients)))
        else some 0) ∧
    p.latency_stdev =
      (if (truthySamples (fun r => r.metrics.avg_latency)
            (groupOf results p.num_clients)).isEmpty then none
        else if 1 < (truthySamples (fun r => r.metrics.avg_latency)
            (groupOf results p.num_clients)).length then
          some (stddev (truthySamples (fun r => r.metrics.avg_latency)
            (groupOf results p.num_clients)))
        else some 0) := by
  rw [aggregate_runs] at hp
  split at hp
  · simp at hp
  · obtain ⟨nc, hnc, hpe⟩ := List.mem_map.mp hp
    subst hpe
    exact ⟨rfl, rfl, rfl, rfl, rfl⟩

/-- C2 witness: the aggregation theorem applied to a concrete two-record
group in which one record carries only a throughput sample and the other
only a latency sample. -/
theorem aggregate_counts_and_samples_witness :
    mixedPoint.num_runs =
      (groupOf mixedResults mixedPoint.num_clients).length ∧
    mixedPoint.throughput_mean =
      (if (truthySamples (fun r => r.metrics.throughput)
            (groupOf mixedResults mixedPoint.num_clients)).isEmpty then none
        else some (mean (truthySamples (fun r => r.metrics.throughput)
          (groupOf mixedResults mixedPoint.num_clients)))) ∧
    mixedPoint.latency_mean =
      (if (truthySamples (fun r => r.metrics.avg_latency)
            (groupOf mixedResults mixedPoint.num_clients)).isEmpty then none
        else some (mean (truthySamples (fun r => r.metrics.avg_latency)
          (groupOf mixedResults mixedPoint.num_clients)))) ∧
    mixedPoint.throughput_stdev =
      (if (truthySamples (fun r => r.metrics.throughput)
            (groupOf mixedResults mixedPoint.num_clients)).isEmpty then none
        else if 1 < (truthySamples (fun r => r.metrics.throughput)
            (groupOf mixedResults mixedPoint.num_clients)).length then
          some (stddev (truthySamples (fun r => r.metrics.throughput)
            (groupOf mixedResults mixedPoint.num_clients)))
        else some 0) ∧
    mixedPoint.latency_stdev =
      (if (truthySamples (fun r => r.metrics.avg_latency)
            (groupOf mixedResults mixedPoint.num_clients)).isEmpty then none
        else if 1 < (truthySamples (fun r => r.metrics.avg_latency)
            (groupOf mixedResults mixedPoint.num_clients)).length then
          some (stddev (truthySamples (fun r => r.metrics.avg_latency)
            (groupOf mixedResults mixedPoint.num_clients)))
        else some 0) :=
  aggregate_counts_and_samples mixedResults mixedPoint
    (List.mem_singleton.mpr rfl)

/-- C2 counterexample: a single record with a present throughput sample
of zero is counted in the run count, yet its sample is dropped by the
truthiness filter, so the point has no throughput mean although the
claim's non-null sample list is nonempty and would give a mean of 0. -/
theorem aggregate_zero_sample_cex :
    specNonNullSamples (fun r => r.metrics.throughput)
      [zeroThroughputRun] = [0] ∧
    (aggregate_runs [zeroThroughputRun]).map
      (fun p => (p.num_runs, p.throughput_mean)) = [(1, none)] ∧
    some (mean (specNonNullSamples (fun r => r.metrics.throughput)
      [zeroThroughputRun])) ≠ (none : Option ℚ) := by
  exact ⟨rfl, rfl, by simp⟩

/-- C4 (amended): in every aggregated point whose run count is 1, each
standard-deviation field equals 0 whenever it is defined, and it is
defined exactly when that metric has a truthy sample in the group; with
no usable sample the field is absent, like the matching mean. -/
theorem stdev_single_run (results : List RunRecord) (p : AggPoint)
    (hp : p ∈ aggregate_runs results) (h1 : p.num_runs = 1) :
    (p.throughput_stdev = none ∨ p.throughput_stdev = some 0) ∧
    (p.latency_stdev = none ∨ p.latency_stdev = some 0) ∧
    (p.throughput_stdev = some 0 ↔
      ¬ (truthySamples (fun r => r.metrics.throughput)
          (groupOf results p.num_clients)).isEmpty) ∧
    (p.latency_stdev = some 0 ↔
      ¬ (truthySamples (fun r => r.metrics.avg_latency)
          (groupOf results p.num_clients)).isEmpty) := by
  rw [aggregate_runs] at hp
  split at hp
  · simp at hp
  · obtain ⟨nc, hnc, hpe⟩ := List.mem_map.mp hp
    subst hpe
    simp only [aggregate_group_num_clients]
    have hlen : (groupOf results nc).length = 1 := h1
    have hthr : ¬ 1 < (truthySamples (fun r => r.metrics.throughput)
        (groupOf results nc)).length := by
      have := truthySamples_length_le (fun r => r.metrics.throughput)
        (groupOf results nc)
      omega
    have hlat : ¬ 1 < (truthySamples (fun r => r.metrics.avg_latency)
        (groupOf results nc)).length := by
      have := truthySamples_length_le (fun r => r.metrics.avg_latency)
        (groupOf results nc)
      omega
    refine ⟨?_, ?_, ?_, ?_⟩
    · by_cases he : (truthySamples (fun r => r.metrics.throughput)
          (groupOf results nc)).isEmpty
      · exact Or.inl (by simp [aggregate_group, he])
      · exact Or.inr (by simp [aggregate_group, he, hthr])
    · by_cases he : (truthySamples (fun r => r.metrics.avg_latency)
          (groupOf results nc)).isEmpty
      · exact Or.inl (by simp [aggregate_group, he])
      · exact Or.inr (by simp [aggregate_group, he, hlat])
    · by_cases he : (truthySamples (fun r => r.metrics.throughput)
          (groupOf results nc)).isEmpty
      · simp [aggregate_group, he]
      · simp [aggregate_group, he, hthr]
    · by_cases he : (truthySamples (fun r => r.metrics.avg_latency)
          (groupOf results nc)).isEmpty
      · simp [aggregate_group, he]
      · simp [aggregate_group, he, hlat]

/-- C4 witness: the single-run theorem applied to a singleton group with
one truthy throughput sample and no latency sample. -/
theorem stdev_single_run_witness :
    (singlePoint.throughput_stdev = none ∨
      singlePoint.throughput_stdev = some 0) ∧
    (singlePoint.latency_stdev = none ∨
      singlePoint.latency_stdev = some 0) ∧
    (singlePoint.throughput_stdev = some 0 ↔
      ¬ (truthySamples (fun r => r.metrics.throughput)
          (groupOf [throughputOnlyRun] singlePoint.num_clients)).isEmpty) ∧
    (singlePoint.latency_stdev = some 0 ↔
      ¬ (truthySamples (fun r => r.metrics.avg_latency)
          (groupOf [throughputOnlyRun] singlePoint.num_clients)).isEmpty) :=
  stdev_single_run [throughputOnlyRun] singlePoint
    (List.mem_singleton.mpr rfl) rfl

/-- C4 counterexample: a group made of one timed-out record has a run
count of 1, yet both standard-deviation fields are absent rather than
defined as 0, because no metric has a usable sample. -/
theorem stdev_single_run_cex :
    (aggregate_runs [timeoutRun]).map
      (fun p => (p.num_runs, p.throughput_stdev, p.latency_stdev)) =
      [(1, none, none)] ∧
    (none : Option ℝ) ≠ some 0 := by
  exact ⟨rfl, by simp⟩

/-- C7: once the server of a known variant has started, an exception
raised by the warmup or either sweep propagates out of
run_variant_benchmarks, and the stop operation runs exactly once on the
way out, leaving no live server process behind. -/
theorem stop_on_exception {α : Type} (variant : String)
    (hv : known_variants.contains variant = true)
    (body : ServerState → BodyOutcome α × ServerState) (s : ServerState)
    (e : String)
    (hraise : (body (startedState variant s)).1 = BodyOutcome.raised e)
    (hlive : (body (startedState variant s)).2.server_process.isSome = true)
    (hnostop : (body (startedState variant s)).2.stop_invocations =
      s.stop_invocations) :
    (run_variant_benchmarks variant true body s).1 = BodyOutcome.raised e ∧
    (run_variant_benchmarks variant true body s).2.stop_invocations =
      s.stop_invocations + 1 ∧
    (run_variant_benchmarks variant true body s).2.server_process =
      none := by
  simp only [run_variant_benchmarks, tryFinally, hv]
  rw [hraise]
  simp [stop_server, hlive, hnostop]

/-- C7 witness: the lifecycle theorem applied to a body that raises at
once on an idle initial state. -/
theorem stop_on_exception_witness :
    (run_variant_benchmarks "jvm-local" true raisingBody idleState).1 =
      BodyOutcome.raised "boom" ∧
    (run_variant_benchmarks "jvm-local" true raisingBody
      idleState).2.stop_invocations = idleState.stop_invocations + 1 ∧
    (run_variant_benchmarks "jvm-local" true raisingBody
      idleState).2.server_process = none :=
  stop_on_exception "jvm-local" (by decide) raisingBody idleState "boom"
    rfl rfl rfl

/-- C8 counterexample: with a Gramine variant requested and no
non-interactive sudo available, the orchestration issues an interactive
credential prompt, whether or not the password would validate, instead of
failing fast without prompting as the claim states. -/
theorem sudo_prompt_cex :
    SudoAction.promptPassword ∈
      main_variant_flow ["jvm-gramine"]
        { non_interactive_ok := false, password_auth_ok := true } ∧
    SudoAction.promptPassword ∈
      main_variant_flow ["jvm-gramine"]
        { non_interactive_ok := false, password_auth_ok := false } := by
  decide

/-- C8 (amended): when elevation is needed and not usable
non-interactively, the orchestration prompts for credentials before any
server start; if the prompt fails to validate it exits with no server
ever started, and if it validates every requested server start happens
after the prompt. -/
theorem sudo_gate_behavior (variants : List String) (env : SudoEnv)
    (hneeds : variants.any (fun v => gramine_variants.contains v) = true)
    (hni : env.non_interactive_ok = false) :
    SudoAction.promptPassword ∈ main_variant_flow variants env ∧
    (env.password_auth_ok = false →
      ∀ v : String,
        SudoAction.startServer v ∉ main_variant_flow variants env) ∧
    (env.password_auth_ok = true →
      main_variant_flow variants env =
        [SudoAction.checkNonInteractive, SudoAction.promptPassword] ++
          variants.map SudoAction.startServer) := by
  obtain ⟨ni, pw⟩ := env
  simp only at hni
  subst hni
  have hex : ∃ x ∈ variants, x ∈ gramine_variants := by simpa using hneeds
  cases pw
  · refine ⟨?_, ?_, ?_⟩ <;>
      simp [main_variant_flow, ensure_sudo_access, hex]
  · refine ⟨?_, ?_, ?_⟩ <;>
      simp [main_variant_flow, ensure_sudo_access, hex]

/-- C8 witness: the gate theorem applied to a request for the
native-static variant in an environment where neither the cached check
nor the password validates: the prompt happens and no server starts. -/
theorem sudo_gate_behavior_witness :
    SudoAction.promptPassword ∈
      main_variant_flow ["native-static"]
        { non_interactive_ok := false, password_auth_ok := false } ∧
    SudoAction.startServer "native-static" ∉
      main_variant_flow ["native-static"]
        { non_interactive_ok := false, password_auth_ok := false } := by
  have h := sudo_gate_behavior ["native-static"]
    { non_interactive_ok := false, password_auth_ok := false }
    (by decide) rfl
  exact ⟨h.1, h.2.1 rfl "native-static"⟩

end RunBenchmarks
